import Mathlib

/-!
Shallow embedding of the remu RV64 simulator (src/src/arch/riscv) and proofs
about the claims on its specification.  Machine integers are modelled as `Nat`
(for the unsigned view) and `Int` (for the signed view) with explicit
reduction modulo `2^64`; fallible operations return `Except`, and operations
whose source arm diverges (a `todo!()` or an out-of-bounds array index, both
of which abort the process) return `none` of an `Option`.
-/

namespace Remu

/-- Reduction modulo 2^64: the result of every wrapping u64 operation. -/
def wrap64 (n : Nat) : Nat := n % 2 ^ 64

/-- Bitwise complement of a u64 (`!x` in the source). -/
def not64 (x : Nat) : Nat := x ^^^ (2 ^ 64 - 1)

/-- Reinterpret a u64 bit pattern as an i64 (`as i64` in the source). -/
def toI64 (x : Nat) : Int := if x < 2 ^ 63 then (x : Int) else (x : Int) - 2 ^ 64

/-- Reinterpret an i64 value as a u64 bit pattern (`as u64` in the source). -/
def toU64 (x : Int) : Nat := (x % (2 ^ 64 : Int)).toNat

/-- Pointwise update of a `Nat`-indexed map (an array write). -/
def updNat (f : Nat → Nat) (k v : Nat) : Nat → Nat :=
  fun i => if i = k then v else f i

/-- `Exception` from exception.rs, each variant carrying the faulting address. -/
inductive RvException where
  | InstructionAddrMisaligned (addr : Nat)
  | InstructionAccessFault (addr : Nat)
  | IllegalInstruction (addr : Nat)
  | Breakpoint (addr : Nat)
  | LoadAccessMisaligned (addr : Nat)
  | LoadAccessFault (addr : Nat)
  | StoreAMOAddrMisaligned (addr : Nat)
  | StoreAMOAccessFault (addr : Nat)
  | EnvironmentCallFromUMode (addr : Nat)
  | EnvironmentCallFromSMode (addr : Nat)
  | EnvironmentCallFromMMode (addr : Nat)
  | InstructionPageFault (addr : Nat)
  | LoadPageFault (addr : Nat)
  | StoreAMOPageFault (addr : Nat)
deriving DecidableEq

/-- The privilege-mode constants of cpu.rs lines 12-14, exactly as written
there (`MACHINE_MODE = 0`, not the ratified encoding). -/
def MACHINE_MODE : Nat := 0

/-- cpu.rs line 13. -/
def SUPERVISOR_MODE : Nat := 1

/-- cpu.rs line 14. -/
def USER_MODE : Nat := 2

/-- The subset of `RiscvInst` (instruction.rs) needed by the claims.  Register
fields are the raw 5-bit indices, immediates the sign-extended i32. -/
inductive RiscvInst where
  | Illegal
  | Addi (rd rs1 : Nat) (imm : Int)
  | Add (rd rs1 rs2 : Nat)
  | Mul (rd rs1 rs2 : Nat)
  | Mulh (rd rs1 rs2 : Nat)
  | Mulhsu (rd rs1 rs2 : Nat)
  | Mulhu (rd rs1 rs2 : Nat)
  | Div (rd rs1 rs2 : Nat)
  | Divu (rd rs1 rs2 : Nat)
  | Rem (rd rs1 rs2 : Nat)
  | Remu (rd rs1 rs2 : Nat)
  | Ecall
  | Ebreak
  | Mret
  | Sret
  | Wfi
  | SfenceVma (rs1 rs2 : Nat)
  | Csrrw (rd rs1 csr : Nat)
  | Csrrs (rd rs1 csr : Nat)
  | Csrrc (rd rs1 csr : Nat)
  | Csrrwi (rd imm csr : Nat)
  | Csrrsi (rd imm csr : Nat)
  | Csrrci (rd imm csr : Nat)
deriving DecidableEq

/-- The hart state of `RV64Cpu` (cpu.rs lines 16-25): clock, pc, the x
register array, the CSR file as a dense map, and the current mode.  The
floating registers, bus and MMU are modelled separately. -/
structure CpuState where
  clock : Nat
  pc : Nat
  x : Nat → Nat
  csr : Nat → Nat
  mode : Nat

/-- One iteration of the `execute` loop of cpu.rs for the embedded arms: the
match arm for the instruction followed by the `pc += 4` fall-through advance
(cpu.rs lines 915-918, full-width case).  Arms whose source is `todo!()`
(Ecall, Ebreak, Mret, Sret, Wfi, SfenceVma) abort the process and are `none`;
instructions outside the embedded subset are also `none`.  Note the source
writes `x[rd]` unconditionally - register 0 is not special-cased here; the
single `self.x[0] = 0` of cpu.rs line 920 runs only after the loop exits. -/
def execInst (inst : RiscvInst) (s : CpuState) : Option CpuState :=
  match inst with
  | .Addi rd rs1 imm =>
      some { s with x := updNat s.x rd (wrap64 (s.x rs1 + toU64 imm)), pc := s.pc + 4 }
  | .Add rd rs1 rs2 =>
      some { s with x := updNat s.x rd (wrap64 (s.x rs1 + s.x rs2)), pc := s.pc + 4 }
  | .Mul rd rs1 rs2 =>
      some { s with x := updNat s.x rd (wrap64 (s.x rs1 * s.x rs2)), pc := s.pc + 4 }
  | .Mulh rd rs1 rs2 =>
      let a := toI64 (s.x rs1)
      let b := toI64 (s.x rs2)
      -- (a.wrapping_mul(b) >> 32) as u64: wrap the product to i64, then
      -- arithmetic shift right by 32 (floor division by 2^32)
      some { s with x := updNat s.x rd (toU64 (Int.fdiv (toI64 (toU64 (a * b))) (2 ^ 32))),
                    pc := s.pc + 4 }
  | .Mulhsu rd rs1 rs2 =>
      let a := toI64 (s.x rs1)
      let b := toI64 (s.x rs2)
      some { s with x := updNat s.x rd (toU64 (Int.fdiv (toI64 (toU64 (a * b))) (2 ^ 32))),
                    pc := s.pc + 4 }
  | .Mulhu rd rs1 rs2 =>
      some { s with x := updNat s.x rd (wrap64 (s.x rs1 * s.x rs2) / 2 ^ 32), pc := s.pc + 4 }
  | .Div rd rs1 rs2 =>
      let a := toI64 (s.x rs1)
      let b := toI64 (s.x rs2)
      some { s with x := updNat s.x rd (if b = 0 then 2 ^ 64 - 1 else toU64 (Int.tdiv a b)),
                    pc := s.pc + 4 }
  | .Divu rd rs1 rs2 =>
      some { s with x := updNat s.x rd
                      (if s.x rs2 = 0 then 2 ^ 64 - 1 else s.x rs1 / s.x rs2),
                    pc := s.pc + 4 }
  | .Rem rd rs1 rs2 =>
      let a := toI64 (s.x rs1)
      let b := toI64 (s.x rs2)
      some { s with x := updNat s.x rd (if b = 0 then toU64 a else toU64 (Int.tmod a b)),
                    pc := s.pc + 4 }
  | .Remu rd rs1 rs2 =>
      some { s with x := updNat s.x rd
                      (if s.x rs2 = 0 then s.x rs1 else s.x rs1 % s.x rs2),
                    pc := s.pc + 4 }
  | _ => none

/-! ## CSR file (csr.rs) -/

/-- csr.rs CSR addresses (subset used here). -/
def SSTATUS : Nat := 0x100

def SIE : Nat := 0x104

def SIP : Nat := 0x144

def MSTATUS : Nat := 0x300

def MEDELEG : Nat := 0x302

def MIDELEG : Nat := 0x303

def MIE : Nat := 0x304

def MTVEC : Nat := 0x305

def MIP : Nat := 0x344

def MASK_SIE : Nat := 1 <<< 1

def MASK_SPIE : Nat := 1 <<< 5

def MASK_UBE : Nat := 1 <<< 6

def MASK_SPP : Nat := 1 <<< 8

def MASK_FS : Nat := 0b11 <<< 13

def MASK_XS : Nat := 0b11 <<< 15

def MASK_SUM : Nat := 1 <<< 18

def MASK_MXR : Nat := 1 <<< 19

def MASK_UXL : Nat := 0b11 <<< 32

def MASK_SD : Nat := 1 <<< 63

def MASK_SSTATUS : Nat :=
  MASK_SIE ||| MASK_SPIE ||| MASK_UBE ||| MASK_SPP ||| MASK_FS ||| MASK_XS |||
  MASK_SUM ||| MASK_MXR ||| MASK_UXL ||| MASK_SD

/-- The dense 4096-entry CSR array, as a map from address to 64-bit value. -/
def Csrs := Nat → Nat

/-- `Csrs::load` (csr.rs lines 19-26). -/
def Csrs.load (c : Csrs) (addr : Nat) : Nat :=
  if addr = SIE then c MIE &&& c MIDELEG
  else if addr = SIP then c MIP &&& c MIDELEG
  else if addr = SSTATUS then c MSTATUS &&& MASK_SSTATUS
  else c addr

/-- `Csrs::store` (csr.rs lines 28-43).  The SIP arm reads `csrs[MIE]` as the
old value, exactly as csr.rs line 36 does. -/
def Csrs.store (c : Csrs) (addr value : Nat) : Csrs :=
  if addr = SIE then
    updNat c MIE ((c MIE &&& not64 (c MIDELEG)) ||| (c MIDELEG &&& value))
  else if addr = SIP then
    updNat c MIP ((c MIE &&& not64 (c MIDELEG)) ||| (c MIDELEG &&& value))
  else if addr = SSTATUS then
    updNat c MSTATUS ((c MSTATUS &&& not64 MASK_SSTATUS) ||| (value &&& MASK_SSTATUS))
  else updNat c addr value

/-- `csr_min_prv_level` (csr.rs lines 166-168). -/
def csr_min_prv_level (addr : Nat) : Nat := (addr >>> 8) &&& 0b11

/-- `csr_readonly` (csr.rs lines 170-172). -/
def csr_readonly (addr : Nat) : Bool := (addr >>> 10) &&& 0b11 == 0b11

/-! ## MMU (mmu.rs) -/

def PTE_V : Nat := 1 <<< 0

def PTE_R : Nat := 1 <<< 1

def PTE_W : Nat := 1 <<< 2

def PTE_X : Nat := 1 <<< 3

def PTE_U : Nat := 1 <<< 4

def PTE_G : Nat := 1 <<< 5

def PTE_A : Nat := 1 <<< 6

def PTE_D : Nat := 1 <<< 7

/-- `Accessibility` (mmu.rs lines 17-22). -/
inductive Accessibility where
  | Read
  | Write
  | Execute
deriving DecidableEq

/-- `AccessType` (mmu.rs lines 136-140). -/
inductive AccessType where
  | Load
  | Store
  | Instruction
deriving DecidableEq

/-- `PageTableEntry64::check_permission` (mmu.rs lines 27-65), the sequence of
early `Err(())` returns written as a guard chain.  `prv` 0 is treated as User
there (the ratified encoding, unlike cpu.rs's constants). -/
def check_permission (pte : Nat) (access : Accessibility) (prv status : Nat) :
    Except Unit Unit :=
  if pte &&& PTE_V = 0 then .error ()
  else if prv = 0 ∧ pte &&& PTE_U = 0 then .error ()
  else if prv ≠ 0 ∧ (pte &&& PTE_U ≠ 0 ∧ status &&& (1 <<< 18) = 0) then .error ()
  else if pte &&& PTE_A = 0 then .error ()
  else
    match access with
    | .Read =>
        if pte &&& PTE_R = 0 ∧ (pte &&& PTE_X = 0 ∨ status &&& (1 <<< 19) = 0) then .error ()
        else .ok ()
    | .Write =>
        if pte &&& PTE_W = 0 ∨ pte &&& PTE_D = 0 then .error ()
        else .ok ()
    | .Execute =>
        if pte &&& PTE_X = 0 then .error () else .ok ()

/-- `get_ppn` for Sv39 (mmu.rs lines 111-119). -/
def sv39GetPpn (pte : Nat) : Nat := (pte >>> 10) &&& 0x3ffffffffff

/-- The access-specific page fault chosen at mmu.rs lines 196-200. -/
def sv39Err (acc : AccessType) (addr : Nat) : RvException :=
  match acc with
  | .Instruction => .InstructionPageFault addr
  | .Load => .LoadPageFault addr
  | .Store => .StoreAMOPageFault addr

/-- The walk loop of `translate_sv39` (mmu.rs lines 202-219): load the PTE at
the current level, fault on invalid or write-without-read entries, stop at a
leaf (R or X set), otherwise descend; running past level 0 faults.  Returns
the leaf PTE and the level it was found at.  The bus is a parameter giving
each 8-byte page-table load. -/
def sv39Walk (busLoad : Nat → Except RvException Nat) (err : RvException)
    (vpn : Nat → Nat) : Nat → Nat → Except RvException (Nat × Nat)
  | i, root =>
    match busLoad (root + vpn i * 8) with
    | .error e => .error e
    | .ok pte =>
      if pte &&& PTE_V = 0 ∨ (pte &&& PTE_R = 0 ∧ pte &&& PTE_W ≠ 0) then .error err
      else if pte &&& PTE_R ≠ 0 ∨ pte &&& PTE_X ≠ 0 then .ok (pte, i)
      else
        match i with
        | 0 => .error err
        | j + 1 => sv39Walk busLoad err vpn j (sv39GetPpn pte <<< 12)

/-- `MMU::translate_sv39` (mmu.rs lines 178-230): the three-level walk then
the physical-address composition by leaf level.  `ppnRoot` is the MMU's
`physical_page_number` field (from satp).  Note that no permission check is
performed anywhere on this path: `check_permission` is never called. -/
def translate_sv39 (ppnRoot : Nat) (busLoad : Nat → Except RvException Nat)
    (acc : AccessType) (addr : Nat) : Except RvException Nat :=
  let vpn : Nat → Nat := fun i => (addr >>> (12 + 9 * i)) &&& 0x1ff
  let err := sv39Err acc addr
  match sv39Walk busLoad err vpn 2 (ppnRoot <<< 12) with
  | .error e => .error e
  | .ok (pte, i) =>
    let ppn1 := (pte >>> 19) &&& 0x1ff
    let ppn2 := (pte >>> 28) &&& 0x3ffffff
    let offset := addr &&& 0xfff
    match i with
    | 0 => .ok ((sv39GetPpn pte <<< 12) ||| offset)
    | 1 => .ok ((ppn2 <<< 30) ||| (ppn1 <<< 21) ||| (vpn 0 <<< 12) ||| offset)
    | 2 => .ok ((ppn2 <<< 30) ||| (vpn 1 <<< 21) ||| (vpn 0 <<< 12) ||| offset)
    | _ => .error err

/-! ## Decoder, SYSTEM opcode (decode.rs) -/

namespace Decode

/-- decode.rs lines 3-5. -/
def rd (bits : Nat) : Nat := (bits >>> 7) &&& 0b11111

/-- decode.rs lines 7-9. -/
def rs1 (bits : Nat) : Nat := (bits >>> 15) &&& 0b11111

/-- decode.rs lines 11-13. -/
def rs2 (bits : Nat) : Nat := (bits >>> 20) &&& 0b11111

/-- decode.rs lines 19-21. -/
def funct3 (bits : Nat) : Nat := (bits >>> 12) &&& 0b111

/-- decode.rs lines 23-25. -/
def funct7 (bits : Nat) : Nat := (bits >>> 25) &&& 0b1111111

/-- decode.rs lines 27-29: `(bits >> 20) as u16`. -/
def csr (bits : Nat) : Nat := (bits >>> 20) &&& 0xffff

end Decode

/-- The SYSTEM (opcode 0b1110011) arm of `decode` (decode.rs lines 1214-1249).
It is a pure function of the 32 encoded bits: the current privilege mode is
not an input.  The source consults a `readonly()` method on a CSR-index
wrapper type whose definition is absent from src; it is modelled here by
`csr_readonly` (csr.rs lines 170-172), which the spec defines by the same
formula `(addr >> 10) & 3 == 3`. -/
def decodeSystem (bits : Nat) : RiscvInst :=
  let function := Decode.funct3 bits
  if function = 0b000 then
    if bits = 0x73 then .Ecall
    else if bits = 0x100073 then .Ebreak
    else if bits = 0x30200073 then .Mret
    else if bits = 0x10200073 then .Sret
    else if bits = 0x10500073 then .Wfi
    else if Decode.rd bits = 0 ∧ Decode.funct7 bits = 0b0001001 then
      .SfenceVma (Decode.rs1 bits) (Decode.rs2 bits)
    else .Illegal
  else if function = 0b100 then .Illegal
  else
    let c := Decode.csr bits
    let readonly : Bool := (function &&& 0b010 != 0) && (Decode.rs1 bits == 0)
    if csr_readonly c && !readonly then .Illegal
    else if function = 0b001 then .Csrrw (Decode.rd bits) (Decode.rs1 bits) c
    else if function = 0b010 then .Csrrs (Decode.rd bits) (Decode.rs1 bits) c
    else if function = 0b011 then .Csrrc (Decode.rd bits) (Decode.rs1 bits) c
    else if function = 0b101 then .Csrrwi (Decode.rd bits) (Decode.rs1 bits) c
    else if function = 0b110 then .Csrrsi (Decode.rd bits) (Decode.rs1 bits) c
    else .Csrrci (Decode.rd bits) (Decode.rs1 bits) c

/-! ## CLINT (clint.rs) and the bus (bus.rs) -/

def CLINT_BASE : Nat := 0x2000000

def CLINT_SIZE : Nat := 0x10000

def CLINT_END : Nat := CLINT_BASE + CLINT_SIZE - 1

/-- clint.rs line 8: an absolute physical address. -/
def CLINT_MTIMECMP : Nat := CLINT_BASE + 0x4000

/-- clint.rs line 9: an absolute physical address. -/
def CLINT_MTIME : Nat := CLINT_BASE + 0xbff8

structure Clint where
  mtime : Nat
  mtimecmp : Nat
deriving DecidableEq

/-- `Clint::load` (clint.rs lines 19-28).  The size is compared against the
literal 64 and the address against the absolute register addresses. -/
def Clint.load (c : Clint) (addr size : Nat) : Except RvException Nat :=
  if size ≠ 64 then .error (.LoadAccessFault addr)
  else if addr = CLINT_MTIMECMP then .ok c.mtimecmp
  else if addr = CLINT_MTIME then .ok c.mtime
  else .error (.LoadAccessFault addr)

/-- `Clint::store` (clint.rs lines 30-39).  The wrong-size arm returns
`LoadAccessFault` (clint.rs line 32). -/
def Clint.store (c : Clint) (addr size value : Nat) : Except RvException Clint :=
  if size ≠ 64 then .error (.LoadAccessFault addr)
  else if addr = CLINT_MTIMECMP then .ok { c with mtimecmp := value }
  else if addr = CLINT_MTIME then .ok { c with mtime := value }
  else .error (.StoreAMOAccessFault addr)

def DRAM_BASE : Nat := 0x80000000

def DRAM_SIZE : Nat := 1024 * 1024 * 128

def DRAM_END : Nat := DRAM_SIZE + DRAM_BASE - 1

def PLIC_BASE : Nat := 0xc000000

def PLIC_SIZE : Nat := 0x4000000

def PLIC_END : Nat := PLIC_BASE + PLIC_SIZE - 1

/-! ## PLIC (plic.rs) -/

def SOURCE_COUNT : Nat := 32

def MAX_SOURCE_COUNT : Nat := 1024

/-- The length `(SOURCE_COUNT - 1) / 32 + 1` of the `source_priority`,
`pending_bits` and per-context `enable_bits` arrays (plic.rs lines 14, 34-35). -/
def plicArrLen : Nat := (SOURCE_COUNT - 1) / 32 + 1

def INT_PRIORITY_BASE : Nat := 0x0

def INT_PRIORITY_STRIDE : Nat := 0x4

def INT_PRIORITY_END : Nat := INT_PRIORITY_BASE + INT_PRIORITY_STRIDE * MAX_SOURCE_COUNT - 1

def INT_PENDING_BASE : Nat := 0x1000

def INT_PENDING_STRIDE : Nat := 0x4

def INT_PENDING_COUNT : Nat := MAX_SOURCE_COUNT / 32

def INT_PENDING_END : Nat := INT_PENDING_BASE + INT_PENDING_STRIDE * INT_PENDING_COUNT - 1

def INT_ENABLE_BITS_BASE : Nat := 0x2000

def INT_ENABLE_BITS_STRIDE : Nat := 0x80

/-- plic.rs line 50, with the build-time constant `MAX_HART_COUNT` (whose
defining module is absent from src) left as a parameter. -/
def INT_ENABLE_BITS_END (maxHart : Nat) : Nat :=
  INT_ENABLE_BITS_BASE + INT_ENABLE_BITS_STRIDE * maxHart - 1

def INT_PRIORITY_THRESHOLD_BASE : Nat := 0x200000

def INT_PRIORITY_THRESHOLD_STRIDE : Nat := 0x1000

/-- plic.rs lines 54-55, parameterised over `MAX_HART_COUNT` as above. -/
def INT_PRIORITY_THRESHOLD_END (maxHart : Nat) : Nat :=
  INT_PRIORITY_THRESHOLD_BASE + INT_PRIORITY_THRESHOLD_STRIDE * maxHart - 1

/-- `PlicOp` (plic.rs lines 57-64). -/
inductive PlicOp where
  | InterruptPriorityOfSource (source : Nat)
  | InterruptPendingBit (word : Nat)
  | EnableBitsForSourcesAndOnContext (source context : Nat)
  | PriorityThresholdForContext (context : Nat)
  | ClaimOrCompleteForContext (context : Nat)
deriving DecidableEq

/-- `PlicContext` (plic.rs lines 10-15); the u32 registers as `Nat` values and
the `enable_bits` array as a map guarded by `plicArrLen`. -/
structure PlicContext where
  priority_threshold : Nat
  claim_or_complete : Nat
  enable_bits : Nat → Nat

/-- `Plic` (plic.rs lines 27-37).  The `context` array has the build-time
length `HART_COUNT`, whose defining module is absent from src; it is kept
here as the field `hartCount` (the spec only says the context count is a
build-time constant). -/
structure Plic where
  pending : Nat
  senable : Nat
  spriority : Nat
  sclaim : Nat
  source_priority : Nat → Nat
  pending_bits : Nat → Nat
  context : Nat → PlicContext
  hartCount : Nat

/-- Wrapping u64 subtraction (`addr - PLIC_BASE` in parse_addr underflows and
wraps when `addr < PLIC_BASE`, as it does for bus-relative offsets). -/
def wsub64 (a b : Nat) : Nat := (a + 2 ^ 64 - b) % 2 ^ 64

/-- `parse_addr` (plic.rs lines 66-95): structural decode of a PLIC window
address (the function itself subtracts `PLIC_BASE` from its argument). -/
def parse_addr (maxHart : Nat) (addr : Nat) : Except Unit PlicOp :=
  let relative := wsub64 addr PLIC_BASE
  if INT_PRIORITY_BASE ≤ relative ∧ relative ≤ INT_PRIORITY_END then
    .ok (.InterruptPriorityOfSource ((relative - INT_PRIORITY_BASE) / INT_PRIORITY_STRIDE))
  else if INT_PENDING_BASE ≤ relative ∧ relative ≤ INT_PENDING_END then
    .ok (.InterruptPendingBit ((relative - INT_PENDING_BASE) / INT_PENDING_STRIDE))
  else if INT_ENABLE_BITS_BASE ≤ relative ∧ relative ≤ INT_ENABLE_BITS_END maxHart then
    .ok (.EnableBitsForSourcesAndOnContext
      ((relative - INT_ENABLE_BITS_BASE) / INT_ENABLE_BITS_STRIDE)
      ((relative - INT_ENABLE_BITS_BASE) % INT_ENABLE_BITS_STRIDE))
  else if INT_PRIORITY_THRESHOLD_BASE ≤ relative ∧
      relative ≤ INT_PRIORITY_THRESHOLD_END maxHart then
    let context := (relative - INT_PRIORITY_THRESHOLD_BASE) / INT_PRIORITY_THRESHOLD_STRIDE
    let threshold := (relative - INT_PRIORITY_THRESHOLD_BASE) % INT_PRIORITY_THRESHOLD_STRIDE
    if threshold = 0 then .ok (.PriorityThresholdForContext context)
    else if threshold = 4 then .ok (.ClaimOrCompleteForContext context)
    else .error ()
  else .error ()

/-- `Plic::load` (plic.rs lines 111-133).  A Rust array index out of bounds
aborts the process; those indexings are guarded here and yield `none`. -/
def Plic.load (p : Plic) (maxHart addr size : Nat) :
    Option (Except RvException Nat) :=
  if size ≠ 4 then some (.error (.LoadAccessFault addr))
  else
    match parse_addr maxHart addr with
    | .ok (.InterruptPriorityOfSource source) =>
        if source < plicArrLen then some (.ok (p.source_priority source)) else none
    | .ok (.InterruptPendingBit source) =>
        if source < plicArrLen then some (.ok (p.pending_bits source)) else none
    | .ok (.EnableBitsForSourcesAndOnContext source context) =>
        if context < p.hartCount ∧ source < plicArrLen then
          some (.ok ((p.context context).enable_bits source))
        else none
    | .ok (.PriorityThresholdForContext context) =>
        if context < p.hartCount then some (.ok ((p.context context).priority_threshold))
        else none
    | .ok (.ClaimOrCompleteForContext context) =>
        if context < p.hartCount then some (.ok ((p.context context).claim_or_complete))
        else none
    | .error _ => some (.ok 0)

/-- `Plic::store` (plic.rs lines 135-157), with the same out-of-bounds
guards; stored values are truncated to u32 (`value as u32`). -/
def Plic.store (p : Plic) (maxHart addr size value : Nat) :
    Option (Except RvException Plic) :=
  if size ≠ 4 then some (.error (.StoreAMOAccessFault addr))
  else
    match parse_addr maxHart addr with
    | .ok (.InterruptPriorityOfSource source) =>
        if source < plicArrLen then
          some (.ok { p with source_priority := updNat p.source_priority source (value % 2 ^ 32) })
        else none
    | .ok (.InterruptPendingBit source) =>
        if source < plicArrLen then
          some (.ok { p with pending_bits := updNat p.pending_bits source (value % 2 ^ 32) })
        else none
    | .ok (.EnableBitsForSourcesAndOnContext source context) =>
        if context < p.hartCount ∧ source < plicArrLen then
          some (.ok { p with context := (fun i =>
            if i = context then
              { (p.context i) with
                enable_bits := updNat (p.context i).enable_bits source (value % 2 ^ 32) }
            else p.context i) })
        else none
    | .ok (.PriorityThresholdForContext context) =>
        if context < p.hartCount then
          some (.ok { p with context := (fun i =>
            if i = context then { (p.context i) with priority_threshold := value % 2 ^ 32 }
            else p.context i) })
        else none
    | .ok (.ClaimOrCompleteForContext context) =>
        if context < p.hartCount then
          some (.ok { p with context := (fun i =>
            if i = context then { (p.context i) with claim_or_complete := value % 2 ^ 32 }
            else p.context i) })
        else none
    | .error _ => some (.ok p)

/-- `RiscvBus::load` (bus.rs lines 103-110): range dispatch to DRAM, PLIC and
CLINT.  Note the devices receive the base-relative offset.  The DRAM byte
store (`Memory::load`) is abstracted as the parameter `mem`. -/
def RiscvBus.load (mem : Nat → Nat → Nat) (p : Plic) (maxHart : Nat) (c : Clint)
    (addr size : Nat) : Option (Except RvException Nat) :=
  if DRAM_BASE ≤ addr ∧ addr ≤ DRAM_END then some (.ok (mem (addr - DRAM_BASE) size))
  else if PLIC_BASE ≤ addr ∧ addr ≤ PLIC_END then Plic.load p maxHart (addr - PLIC_BASE) size
  else if CLINT_BASE ≤ addr ∧ addr ≤ CLINT_END then some (Clint.load c (addr - CLINT_BASE) size)
  else some (.error (.LoadAccessFault addr))

/-- `Plic::new` (plic.rs lines 98-109), with the context-array length as a
parameter (see `Plic`). -/
def plicNew (h : Nat) : Plic :=
  { pending := 0, senable := 0, spriority := 0, sclaim := 0,
    source_priority := fun _ => 0, pending_bits := fun _ => 0,
    context := fun _ =>
      { priority_threshold := 0, claim_or_complete := 0, enable_bits := fun _ => 0 },
    hartCount := h }

/-- `RV64Cpu::new` (cpu.rs lines 28-39) restricted to the embedded fields:
clock 0, pc 0, registers and CSRs all zero, and mode `MACHINE_MODE`. -/
def RV64CpuNew : CpuState :=
  { clock := 0, pc := 0, x := fun _ => 0, csr := fun _ => 0, mode := MACHINE_MODE }

/-! ## Concrete states used by the theorems -/

/-- An all-zero hart at pc `0x80000000`. -/
def zeroCpu : CpuState :=
  { clock := 0, pc := 0x80000000, x := fun _ => 0, csr := fun _ => 0, mode := MACHINE_MODE }

/-- A machine-mode hart whose `mtvec` holds `0x80001000`. -/
def ecallCpu : CpuState :=
  { clock := 0, pc := 0x80000000, x := fun _ => 0,
    csr := fun a => if a = MTVEC then 0x80001000 else 0, mode := MACHINE_MODE }

/-- A hart with `x1 = x2 = 2^32`. -/
def mulhCpu : CpuState :=
  { clock := 0, pc := 0x80000000, x := fun i => if i = 1 ∨ i = 2 then 2 ^ 32 else 0,
    csr := fun _ => 0, mode := MACHINE_MODE }

/-- A hart with `x1 = -2^63` and `x2 = -1` (as u64 bit patterns). -/
def divCpu : CpuState :=
  { clock := 0, pc := 0x80000000,
    x := fun i => if i = 1 then 2 ^ 63 else if i = 2 then 2 ^ 64 - 1 else 0,
    csr := fun _ => 0, mode := MACHINE_MODE }

/-- A CSR file whose only nonzero register is `mip = 0x80` (MTIP). -/
def c5Csrs : Csrs := fun a => if a = MIP then 0x80 else 0

/-- A page-table memory: the single root PTE at PA `0x80000000` is `0x43`
(`V|R|A`, no `W`, no `D`), a leaf at level 2. -/
def c6BusLoad : Nat → Except RvException Nat :=
  fun addr => if addr = 0x80000000 then .ok 0x43 else .error (.LoadAccessFault addr)

/-- A CLINT with both registers zero. -/
def c9Clint : Clint := { mtime := 0, mtimecmp := 0 }

/-! ## Claim theorems -/

/-- C1: the claim says a write with destination register 0 is suppressed and
subsequent instructions read 0 from `x[0]`.  The code refutes it: `Addi`
with `rd = 0` stores 5 into `x[0]` (cpu.rs line 145), and a following
`Add x1, x0, x0` reads that 5 twice, producing 10; `x[0]` is reset to zero
only once, after the run loop has exited (cpu.rs line 920). -/
theorem c1_x0_write_observed :
    ((execInst (.Addi 0 0 5) zeroCpu).map fun t => t.x 0) = some 5 ∧
    (((execInst (.Addi 0 0 5) zeroCpu).bind (execInst (.Add 1 0 0))).map fun t => t.x 1)
      = some 10 := by
  constructor <;> rfl

/-- C2: the claim says the privilege-mode field uses the ratified encoding
(Machine = 3, User = 0) and a new hart starts at 3.  The code refutes it:
cpu.rs lines 12-14 define `MACHINE_MODE = 0`, `SUPERVISOR_MODE = 1`,
`USER_MODE = 2`, and `RV64Cpu::new` starts with `mode = 0`. -/
theorem c2_mode_encoding_adhoc :
    RV64CpuNew.mode = 0 ∧ MACHINE_MODE ≠ 3 ∧ USER_MODE ≠ 0 ∧ SUPERVISOR_MODE = 1 := by
  refine ⟨rfl, ?_, ?_, rfl⟩ <;> decide

/-- C3: the claim describes the ecall trap entry and the mret return.  The
code refutes it: the `Ecall` arm of `execute` is `todo!("ecall")`
(cpu.rs lines 356-358) and the `Mret` arm is `todo!()` (cpu.rs line 910);
both abort the process instead of updating `mepc`/`mcause`/`mstatus`/pc,
so the executed instruction has no successor state. -/
theorem c3_trap_unimplemented :
    execInst .Ecall ecallCpu = none ∧ execInst .Mret ecallCpu = none :=
  ⟨rfl, rfl⟩

/-- C5: the claim says a CSR-file write to `sip` updates `mip` to
`(old_mip & ~mideleg) | (value & mideleg)`, preserving non-delegated bits.
The code refutes it: csr.rs line 36 reads `csrs[MIE]` instead of `csrs[MIP]`
as the old value, so with `mip = 0x80`, `mie = 0`, `mideleg = 0`, storing 0
to `sip` clears `mip` to 0 where the claim requires it to stay `0x80`. -/
theorem c5_sip_store_uses_mie :
    Csrs.store c5Csrs SIP 0 MIP = 0 ∧
    c5Csrs MIP = 0x80 ∧ c5Csrs MIDELEG = 0 ∧
    ((c5Csrs MIP &&& not64 (c5Csrs MIDELEG)) ||| (c5Csrs MIDELEG &&& 0)) = 0x80 := by
  refine ⟨?_, rfl, rfl, ?_⟩ <;> decide

/-- C6: the claim says a Store translation whose leaf PTE lacks `W` or `D`
returns `StoreAMOPageFault`.  The code refutes it: `translate_sv39` never
invokes `check_permission`, so the Store translation of VA 0 through a leaf
PTE `0x43` (`V|R|A`, no `W`, no `D`) succeeds with PA 0 even though
`check_permission` itself would reject that PTE for a write. -/
theorem c6_translate_skips_permission_check :
    translate_sv39 0x80000 c6BusLoad .Store 0 = .ok 0 ∧
    check_permission 0x43 .Write SUPERVISOR_MODE 0 = .error () := by
  constructor <;> rfl

/-- C7: the claim says MULH/MULHSU/MULHU write the high 64 bits of the
128-bit product.  The code refutes it: cpu.rs lines 399-413 compute the
64-bit wrapping product shifted right by 32, so with `rs1 = rs2 = 2^32`
(whose 128-bit product is `2^64`, high half 1) all three write 0. -/
theorem c7_mulh_shifts_32 :
    ((execInst (.Mulh 3 1 2) mulhCpu).map fun t => t.x 3) = some 0 ∧
    ((execInst (.Mulhsu 3 1 2) mulhCpu).map fun t => t.x 3) = some 0 ∧
    ((execInst (.Mulhu 3 1 2) mulhCpu).map fun t => t.x 3) = some 0 ∧
    2 ^ 32 * 2 ^ 32 / 2 ^ 64 = 1 := by
  refine ⟨rfl, rfl, rfl, ?_⟩
  norm_num

/-- C8: the claim says `decode` returns `Illegal` for a CSR access at less
than the required privilege.  The code refutes it: decode is a pure function
of the 32 bits with no privilege input, and `csrrw x5, mstatus, x6`
(encoding `0x300312F3`) decodes to a legal `Csrrw` even though `mstatus`
requires privilege 3.  The read-only half of the claim does hold:
`csrrw x5, cycle, x1` (`0xC00092F3`) is `Illegal` while
`csrrs x5, cycle, x0` (`0xC00022F3`) is legal because `rs1 = x0`. -/
theorem c8_decode_no_privilege_check :
    decodeSystem 0x300312F3 = .Csrrw 5 6 0x300 ∧
    csr_min_prv_level 0x300 = 3 ∧
    decodeSystem 0xC00092F3 = .Illegal ∧
    decodeSystem 0xC00022F3 = .Csrrs 5 0 0xC00 := by
  refine ⟨?_, ?_, ?_, ?_⟩ <;> decide

/-- C9: the claim says an 8-byte CLINT access through the bus succeeds and a
wrongly-sized store fails with `StoreAMOAccessFault`.  The code refutes it:
the CLINT compares the size against the literal 64 while the bus passes byte
counts, and it matches the absolute register addresses against the
bus-relative offset, so the 8-byte load of `mtime` fails with
`LoadAccessFault` and even a size-64 load fails; a wrongly-sized store also
returns `LoadAccessFault` (clint.rs line 32), not `StoreAMOAccessFault`. -/
theorem c9_clint_size_and_base_mismatch :
    RiscvBus.load (fun _ _ => 0) (plicNew 1) 1 c9Clint CLINT_MTIME 8
      = some (.error (.LoadAccessFault 0xbff8)) ∧
    RiscvBus.load (fun _ _ => 0) (plicNew 1) 1 c9Clint CLINT_MTIME 64
      = some (.error (.LoadAccessFault 0xbff8)) ∧
    Clint.store c9Clint 0xbff8 8 0 = .error (.LoadAccessFault 0xbff8) := by
  refine ⟨?_, ?_, ?_⟩ <;> rfl

/-- C10 counterexample: the claim says every size-4 load of a recognised
PLIC offset returns `Ok`, in particular interrupt-priority sources up to
1023.  The source-priority array has length `(32-1)/32+1 = 1`, so the load
of priority source 1 (offset 4) indexes out of bounds and aborts instead. -/
theorem c10_priority_load_panics :
    Plic.load (plicNew 1) 1 (PLIC_BASE + 4) 4 = none := by
  rfl

/-- Round-tripping a u64 bit pattern through the signed view is the
identity. -/
theorem toU64_toI64 {a : Nat} (h : a < 2 ^ 64) : toU64 (toI64 a) = a := by
  unfold toU64 toI64
  split <;> omega

/-- C4: the RISC-V divide/remainder edge cases, exactly as the executor arms
of cpu.rs lines 414-441 implement them: division by zero gives quotient
`2^64 - 1` (all ones) for DIV and DIVU and the unchanged dividend for REM
and REMU, and the signed overflow `DIV(-2^63, -1)` gives `-2^63` (bit
pattern `2^63`) with REM giving 0. -/
theorem c4_div_rem_edge_cases (s : CpuState) (rd rs1 rs2 : Nat)
    (h1 : s.x rs1 < 2 ^ 64) :
    (s.x rs2 = 0 →
      ((execInst (.Div rd rs1 rs2) s).map fun t => t.x rd) = some (2 ^ 64 - 1) ∧
      ((execInst (.Divu rd rs1 rs2) s).map fun t => t.x rd) = some (2 ^ 64 - 1) ∧
      ((execInst (.Rem rd rs1 rs2) s).map fun t => t.x rd) = some (s.x rs1) ∧
      ((execInst (.Remu rd rs1 rs2) s).map fun t => t.x rd) = some (s.x rs1)) ∧
    (s.x rs1 = 2 ^ 63 → s.x rs2 = 2 ^ 64 - 1 →
      ((execInst (.Div rd rs1 rs2) s).map fun t => t.x rd) = some (2 ^ 63) ∧
      ((execInst (.Rem rd rs1 rs2) s).map fun t => t.x rd) = some 0) := by
  constructor
  · intro h0
    refine ⟨?_, ?_, ?_, ?_⟩
    · simp only [execInst, Option.map_some', updNat, eq_self_iff_true, if_true, h0]
      norm_num [toI64]
    · simp only [execInst, Option.map_some', updNat, eq_self_iff_true, if_true, h0]
    · simp only [execInst, Option.map_some', updNat, eq_self_iff_true, if_true, h0]
      rw [if_pos (by decide : toI64 0 = (0 : Int))]
      exact congrArg some (toU64_toI64 h1)
    · simp only [execInst, Option.map_some', updNat, eq_self_iff_true, if_true, h0]
  · intro ha hb
    constructor
    · simp only [execInst, Option.map_some', updNat, eq_self_iff_true, if_true, ha, hb]
      decide
    · simp only [execInst, Option.map_some', updNat, eq_self_iff_true, if_true, ha, hb]
      decide

/-- C4 witness: the theorem applied at the concrete hart `divCpu`, whose
`x1`/`x2` are the signed-overflow operands. -/
theorem c4_div_rem_edge_cases_witness :
    ((execInst (.Div 3 1 2) divCpu).map fun t => t.x 3) = some (2 ^ 63) ∧
    ((execInst (.Rem 3 1 2) divCpu).map fun t => t.x 3) = some 0 :=
  (c4_div_rem_edge_cases divCpu 3 1 2 (by decide)).2 (by decide) (by decide)

/-- `parse_addr` on the interrupt-priority window: offset `4·s` for any
source `s ≤ 1023`. -/
theorem parse_addr_priority (maxHart s : Nat) (hs : s ≤ 1023) :
    parse_addr maxHart (PLIC_BASE + 4 * s) = .ok (.InterruptPriorityOfSource s) := by
  have h1 : wsub64 (PLIC_BASE + 4 * s) PLIC_BASE = 4 * s := by
    unfold wsub64 PLIC_BASE
    omega
  simp only [parse_addr, h1, INT_PRIORITY_BASE, INT_PRIORITY_END, INT_PRIORITY_STRIDE,
    MAX_SOURCE_COUNT]
  rw [if_pos (by omega)]
  simp only [Except.ok.injEq, PlicOp.InterruptPriorityOfSource.injEq]
  omega

/-- `parse_addr` on the pending-bit window: offset `0x1000 + 4·w` for any
word `w ≤ 31`. -/
theorem parse_addr_pending (maxHart w : Nat) (hw : w ≤ 31) :
    parse_addr maxHart (PLIC_BASE + 0x1000 + 4 * w) = .ok (.InterruptPendingBit w) := by
  have h1 : wsub64 (PLIC_BASE + 0x1000 + 4 * w) PLIC_BASE = 0x1000 + 4 * w := by
    unfold wsub64 PLIC_BASE
    omega
  simp only [parse_addr, h1, INT_PRIORITY_BASE, INT_PRIORITY_END, INT_PRIORITY_STRIDE,
    INT_PENDING_BASE, INT_PENDING_END, INT_PENDING_STRIDE, INT_PENDING_COUNT,
    MAX_SOURCE_COUNT]
  rw [if_neg (by omega), if_pos (by omega)]
  simp only [Except.ok.injEq, PlicOp.InterruptPendingBit.injEq]
  omega

/-- C10 amended: a size-4 `Plic::load` of a recognised interrupt-priority or
pending-bit offset is total only where the decoded index is within the
backing array of length `(32-1)/32+1 = 1`: source 0 and word 0 read their
register, while every recognised source in `[1, 1023]` (and word in
`[1, 31]`) indexes out of bounds and the access aborts (`none`); likewise a
store to a source in `[1, 1023]` aborts. -/
theorem c10_priority_pending_bounds (p : Plic) (maxHart s w v : Nat) :
    (s ≤ 1023 →
      Plic.load p maxHart (PLIC_BASE + 4 * s) 4
        = if s = 0 then some (.ok (p.source_priority 0)) else none) ∧
    (w ≤ 31 →
      Plic.load p maxHart (PLIC_BASE + 0x1000 + 4 * w) 4
        = if w = 0 then some (.ok (p.pending_bits 0)) else none) ∧
    (1 ≤ s → s ≤ 1023 →
      Plic.store p maxHart (PLIC_BASE + 4 * s) 4 v = none) := by
  refine ⟨?_, ?_, ?_⟩
  · intro hs
    simp only [Plic.load, parse_addr_priority maxHart s hs]
    norm_num [plicArrLen, SOURCE_COUNT]
    rcases Nat.eq_zero_or_pos s with h | h
    · subst h
      norm_num
    · rw [if_neg (by omega), if_neg (by omega)]
  · intro hw
    simp only [Plic.load, parse_addr_pending maxHart w hw]
    norm_num [plicArrLen, SOURCE_COUNT]
    rcases Nat.eq_zero_or_pos w with h | h
    · subst h
      norm_num
    · rw [if_neg (by omega), if_neg (by omega)]
  · intro hs1 hs
    simp only [Plic.store, parse_addr_priority maxHart s hs]
    norm_num [plicArrLen, SOURCE_COUNT]
    omega

/-- C10 witness: the amended theorem applied at the default PLIC, source 1
(aborts) and pending word 0 (reads 0). -/
theorem c10_priority_pending_bounds_witness :
    Plic.load (plicNew 1) 1 (PLIC_BASE + 4 * 1) 4 = none ∧
    Plic.load (plicNew 1) 1 (PLIC_BASE + 0x1000 + 4 * 0) 4 = some (.ok 0) := by
  have h := c10_priority_pending_bounds (plicNew 1) 1 1 0 0
  refine ⟨?_, ?_⟩
  · have h1 := h.1 (by norm_num)
    simpa using h1
  · have h2 := h.2.1 (by norm_num)
    simpa [plicNew] using h2

end Remu
